import Mathlib

/-!
Verification development for the PortraitGenerator repository.

Shallow embedding of the quality-scored portrait-generation pipeline:
the pre-generation validator, the basic quality evaluator, filename
construction, batch orchestration, the sepia pixel transform, the model
compatibility manager, the overlay compositor and the image-generation
entry point.  Python floats are modelled as rationals, Python exceptions
as `Except`, Python dicts as association lists (insertion order kept),
and the external generative-AI backend as an explicit oracle parameter.
All definitions are transcribed from the repository sources.
-/

/-! ## Python string primitives (ASCII fragment used by the repository) -/

/-- Python `str.isspace` for the ASCII whitespace characters. -/
def pyIsSpace (c : Char) : Bool :=
  c = ' ' || c = '\t' || c = '\n' || c = '\r' || c = '\x0b' || c = '\x0c'

/-- Python `str.strip` (ASCII whitespace). -/
def pyStrip (s : String) : String :=
  String.mk (((s.toList.dropWhile pyIsSpace).reverse.dropWhile pyIsSpace).reverse)

/-- Python `str.lower` (ASCII). -/
def pyLower (s : String) : String :=
  String.mk (s.toList.map Char.toLower)

/-- Python substring containment `needle in hay`. -/
def pyContains (hay needle : String) : Bool :=
  hay.toList.tails.any (fun t => needle.toList.isPrefixOf t)

/-- Python `int()` truncation toward zero on a rational. -/
def pyInt (q : ℚ) : ℤ :=
  if 0 ≤ q then ⌊q⌋ else ⌈q⌉

/-! ## Data model (`api/models.py`) -/

/-- `SubjectData` (the fields consumed by the components modelled here). -/
structure SubjectData where
  name : String
  birth_year : ℤ
  death_year : Option ℤ
  era : String
deriving DecidableEq

/-- `SubjectData.formatted_years`. -/
def SubjectData.formatted_years (s : SubjectData) : String :=
  match s.death_year with
  | some d => if d ≠ 0 then toString s.birth_year ++ "-" ++ toString d
              else toString s.birth_year ++ "-Present"
  | none => toString s.birth_year ++ "-Present"

/-- `ReferenceImage` (the fields consumed by the pre-generation validator). -/
structure ReferenceImage where
  source : String
  authenticity_score : ℚ
  quality_score : ℚ
  era_match : Bool
deriving DecidableEq

/-! ## PreGenerationValidator (`pre_generation_validator.py`) -/

/-- The `reference_validation` dictionary built by `_validate_reference_images`. -/
structure RefValidation where
  issues : List String
  warnings : List String
  total_images : Nat
  authentic_count : Nat
  quality_scores : List ℚ
  average_quality : Option ℚ
deriving DecidableEq

/-- `ValidationResult` dataclass. -/
structure ValidationResult where
  is_valid : Bool
  confidence : ℚ
  issues : List String
  warnings : List String
  recommendations : List String
  fact_check_results : List (String × Bool)
  reference_validation : RefValidation
deriving DecidableEq

/-- `_validate_subject_data`: completeness checks, returning blocking issues. -/
def validate_subject_data (s : SubjectData) : List String :=
  let issues : List String := []
  let issues := if s.name = "" || (pyStrip s.name).length < 3 then
      issues ++ ["Subject name is too short or empty"] else issues
  let issues := if s.era = "" then
      issues ++ ["Historical era not specified"] else issues
  let issues := if s.birth_year = 0 || s.birth_year < 1000 then
      issues ++ ["Invalid or missing birth year"] else issues
  let issues :=
    match s.death_year with
    | some d =>
        if d ≠ 0 then
          let issues := if d < s.birth_year then
              issues ++ ["Death year precedes birth year"] else issues
          if d - s.birth_year > 150 then
              issues ++ ["Lifespan exceeds 150 years (likely data error)"] else issues
        else issues
    | none => issues
  issues

/-- `_parse_verification_response`: keyword heuristic, negatives first,
unparseable or empty responses assumed valid (fail-open). -/
def parse_verification_response (response : Option String) : Bool :=
  match response with
  | none => true
  | some r =>
      if r = "" then true
      else
        let rl := pyLower r
        if ["incorrect", "inaccurate", "false", "no", "wrong"].any
            (fun w => pyContains rl w) then false
        else if ["correct", "accurate", "verified", "yes", "confirmed"].any
            (fun w => pyContains rl w) then true
        else true

/-- `_fact_check_subject`: three grounded queries parsed to booleans.  The
grounding backend is the oracle `ground`; `hasGrounding` models the
`hasattr(client, "query_with_grounding")` test. -/
def fact_check_subject (hasGrounding : Bool) (ground : String → Option String)
    (s : SubjectData) : List (String × Bool) :=
  if !hasGrounding then [("grounding_not_available", true)]
  else
    let birth_query := "Verify birth year for " ++ s.name ++ ": " ++ toString s.birth_year
    let results := [("birth_year", parse_verification_response (ground birth_query))]
    let results :=
      match s.death_year with
      | some d =>
          if d ≠ 0 then
            let death_query := "Verify death year for " ++ s.name ++ ": " ++ toString d
            results ++ [("death_year", parse_verification_response (ground death_query))]
          else results
      | none => results
    let era_query := "Verify " ++ s.name ++ " lived during " ++ s.era
    results ++ [("era", parse_verification_response (ground era_query))]

/-- `_validate_style`: membership in the four fixed styles. -/
def validate_style_issues (style : String) : List String :=
  if ["BW", "Sepia", "Color", "Painting"].contains style then []
  else ["Invalid style " ++ style ++ ". Must be one of: BW, Sepia, Color, Painting"]

/-- `_validate_prompt`: length and content checks, returning (issues, warnings). -/
def validate_prompt (prompt : String) (s : SubjectData) :
    List String × List String :=
  let issues := if prompt = "" || (pyStrip prompt).length < 50 then
      ["Prompt is too short (minimum 50 characters)"] else []
  let warnings : List String := []
  let warnings := if !pyContains prompt s.name then
      warnings ++ ["Subject name not found in prompt"] else warnings
  let warnings := if !pyContains prompt s.era then
      warnings ++ ["Historical era not mentioned in prompt"] else warnings
  let warnings := warnings ++
    (["cartoon", "anime", "sketch", "drawing"].filter
        (fun w => pyContains (pyLower prompt) w)).map
      (fun w => "Prompt contains " ++ w ++ " which may affect photorealism")
  (issues, warnings)

/-- `_validate_reference_images`: per-reference warnings and aggregates. -/
def validate_reference_images (refs : List ReferenceImage) : RefValidation :=
  let perRef := refs.map (fun r =>
    let ws : List String := []
    let authentic := decide (r.authenticity_score ≥ 3/4)
    let ws := if authentic then ws
      else ws ++ ["Low authenticity score for " ++ r.source]
    let ws := if r.quality_score < 3/5 then
      ws ++ ["Low quality score for " ++ r.source] else ws
    let ws := if !r.era_match then
      ws ++ ["Reference from " ++ r.source ++ " may not match era"] else ws
    (ws, authentic, r.quality_score))
  let warnings := (perRef.map (fun t => t.1)).flatten
  let authentic_count := (perRef.filter (fun t => t.2.1)).length
  let quality_scores := refs.map (fun r => r.quality_score)
  let avg : Option ℚ :=
    if quality_scores ≠ [] then
      some (quality_scores.sum / (quality_scores.length : ℚ))
    else none
  let warnings :=
    match avg with
    | some a => if a < 7/10 then warnings ++ ["Average reference quality is low"]
                else warnings
    | none => warnings
  let warnings :=
    if authentic_count < 2 ∧ refs.length ≥ 2 then
      warnings ++ ["Fewer than 2 authentic references available"]
    else warnings
  { issues := []
    warnings := warnings
    total_images := refs.length
    authentic_count := authentic_count
    quality_scores := quality_scores
    average_quality := avg }

/-- `_check_common_pitfalls`: era/style warnings. -/
def check_common_pitfalls (s : SubjectData) (style : String) : List String :=
  let warnings : List String := []
  let warnings := if s.birth_year < 1800 then
    warnings ++ ["Subject from " ++ toString s.birth_year ++
      " - limited photographic references available"] else warnings
  let warnings := if s.birth_year > 1950 then
    warnings ++ ["Recent subject - be mindful of copyright and privacy concerns"]
    else warnings
  let warnings := if style = "BW" ∧ s.birth_year > 1950 then
    warnings ++ ["Generating BW portrait for color photography era - consider Color style"]
    else warnings
  let warnings := if style = "Sepia" ∧ s.birth_year > 1930 then
    warnings ++ ["Sepia style uncommon for subjects born after 1930"] else warnings
  warnings

/-- `_generate_recommendations`. -/
def generate_recommendations (s : SubjectData) (issues warnings : List String) :
    List String :=
  let recs : List String := []
  let recs := if issues ≠ [] then
    recs ++ ["Resolve all issues before proceeding with generation"] else recs
  let recs := if warnings ≠ [] then
    recs ++ ["Review warnings and consider adjustments"] else recs
  let recs := if s.birth_year < 1850 then
    recs ++ ["Consider Painting style for pre-photography era subjects"] else recs
  let recs := if warnings.length > 3 then
    recs ++ ["Multiple warnings detected - consider revising inputs"] else recs
  if recs = [] then ["All validation checks passed - proceed with generation"]
  else recs

/-- Number of failed entries of a fact-check result dictionary
(`sum(1 for v in fact_check_results.values() if not v)`). -/
def failedChecks (factRes : List (String × Bool)) : Nat :=
  (factRes.filter (fun kv => !kv.2)).length

/-- `_calculate_confidence`: start at 1.0, subtract 0.25 per issue, 0.05 per
warning, 0.15 per failed fact-check, clamp to [0, 1]. -/
def calculate_confidence (issues warnings : List String)
    (factRes : List (String × Bool)) : ℚ :=
  let confidence : ℚ := 1
  let confidence := confidence - (issues.length : ℚ) * (1/4)
  let confidence := confidence - (warnings.length : ℚ) * (1/20)
  let confidence := confidence - (failedChecks factRes : ℚ) * (3/20)
  max 0 (min 1 confidence)

/-- The issue strings appended by `validate` for failed fact-checks
(the loop at lines 105-107 of `pre_generation_validator.py`). -/
def factCheckIssues (factRes : List (String × Bool)) : List String :=
  (factRes.filter (fun kv => !kv.2)).map (fun kv => "Fact-check failed: " ++ kv.1)

/-- `PreGenerationValidator.validate`.  `enableFactChecking` is the
constructor flag; `hasGrounding` and `ground` stand for the external
grounding client.  `refs = []` models `reference_images=None` (both are
falsy in the `if reference_images:` test). -/
def validate (enableFactChecking hasGrounding : Bool)
    (ground : String → Option String) (s : SubjectData) (style prompt : String)
    (refs : List ReferenceImage) : ValidationResult :=
  let issues := validate_subject_data s
  let fact_check_results :=
    if enableFactChecking then fact_check_subject hasGrounding ground s else []
  let issues := issues ++ factCheckIssues fact_check_results
  let issues := issues ++ validate_style_issues style
  let pp := validate_prompt prompt s
  let issues := issues ++ pp.1
  let warnings := pp.2
  let reference_validation :=
    if refs ≠ [] then validate_reference_images refs
    else { issues := [], warnings := [], total_images := 0, authentic_count := 0,
           quality_scores := [], average_quality := none }
  let issues := if refs ≠ [] then issues ++ reference_validation.issues else issues
  let warnings := if refs ≠ [] then warnings ++ reference_validation.warnings
                  else warnings
  let warnings := warnings ++ check_common_pitfalls s style
  let recommendations := generate_recommendations s issues warnings
  let confidence := calculate_confidence issues warnings fact_check_results
  let is_valid := issues.length == 0 && decide (confidence > 1/2)
  { is_valid := is_valid
    confidence := confidence
    issues := issues
    warnings := warnings
    recommendations := recommendations
    fact_check_results := fact_check_results
    reference_validation := reference_validation }

/-! ## Images (PIL fragment used by the repository) -/

/-- One RGB pixel; channels are 0-255 in real images. -/
structure RGB where
  r : Nat
  g : Nat
  b : Nat
deriving DecidableEq

/-- A PIL image: size, colour mode and row-major pixel grid. -/
structure PILImage where
  width : Nat
  height : Nat
  mode : String
  rows : List (List RGB)
deriving DecidableEq

/-- `image.getdata()`: row-major flattening. -/
def PILImage.getdata (img : PILImage) : List RGB :=
  img.rows.flatten

/-- `image.crop((left, upper, right, lower))` on the pixel grid. -/
def PILImage.crop (img : PILImage) (left upper right lower : Nat) : PILImage :=
  { width := right - left
    height := lower - upper
    mode := img.mode
    rows := ((img.rows.drop upper).take (lower - upper)).map
      (fun row => (row.drop left).take (right - left)) }

/-- `image.getpixel((x, y))` (in-range accesses only are exercised). -/
def PILImage.getpixel (img : PILImage) (x y : Nat) : RGB :=
  (((img.rows.get? y).getD []).get? x).getD ⟨0, 0, 0⟩

/-- `sum(p[:3]) / 3`: mean channel brightness of a pixel. -/
def brightness (p : RGB) : ℚ :=
  ((p.r : ℚ) + (p.g : ℚ) + (p.b : ℚ)) / 3

/-- Python `range(start, stop, step)` for naturals. -/
def pyRangeStep (start stop step : Nat) : List Nat :=
  List.range' start ((stop - start + step - 1) / step) step

/-- Maximum of a list of rationals (`max(...)` on a non-empty list). -/
def listMaxQ : List ℚ → ℚ
  | [] => 0
  | x :: xs => xs.foldl max x

/-- Minimum of a list of rationals (`min(...)` on a non-empty list). -/
def listMinQ : List ℚ → ℚ
  | [] => 0
  | x :: xs => xs.foldl min x

/-! ## QualityEvaluator (`core/evaluator.py`) -/

/-- `EvaluationResult` model.  `scores` is the insertion-ordered dict. -/
structure EvaluationResult where
  passed : Bool
  scores : List (String × ℚ)
  feedback : List String
  issues : List String
  recommendations : List String
deriving DecidableEq

/-- `QualityEvaluator.MIN_VISUAL_QUALITY_SCORE`. -/
def MIN_VISUAL_QUALITY_SCORE : ℚ := 85/100

/-- `QualityEvaluator.MIN_HISTORICAL_ACCURACY_SCORE`. -/
def MIN_HISTORICAL_ACCURACY_SCORE : ℚ := 80/100

/-- `check_technical_requirements`: the ordered dict of boolean checks. -/
def check_technical_requirements (img : PILImage) (expected : Nat × Nat) :
    List (String × Bool) :=
  let checks : List (String × Bool) :=
    [("Correct width", img.width == expected.1),
     ("Correct height", img.height == expected.2),
     ("RGB mode", img.mode == "RGB"),
     ("Image has content", decide ((img.getdata.take 100).dedup.length > 1))]
  if img.height > 0 then
    let bar := img.crop 0 (pyInt ((img.height : ℚ) * (85/100))).toNat
      img.width img.height
    let pixels := bar.getdata
    let avg := (pixels.map brightness).sum / (pixels.length : ℚ)
    checks ++ [("Overlay present", decide (avg < 100))]
  else checks

/-- `check_visual_quality`: weighted brightness/contrast/detail/artifact
heuristic, normalised by the accumulated criterion cap `4 * 0.3`. -/
def check_visual_quality (img : PILImage) (style : String) : ℚ :=
  let _ := style
  let pixels := img.getdata
  let avg := (pixels.map brightness).sum / (pixels.length : ℚ)
  let score : ℚ := 0
  let score := if 40 ≤ avg ∧ avg ≤ 200 then score + 3/10
    else if 20 ≤ avg ∧ avg ≤ 220 then score + 3/20 else score
  let brightnesses := pixels.map brightness
  let contrast := listMaxQ brightnesses - listMinQ brightnesses
  let score := if contrast > 150 then score + 3/10
    else if contrast > 100 then score + 1/5
    else if contrast > 50 then score + 1/10 else score
  let ys := pyRangeStep 10 (min (img.height - 10) 100) 10
  let xs := pyRangeStep 10 (min (img.width - 10) 100) 10
  let samplePoints := ys.flatMap (fun y => xs.map (fun x => (x, y)))
  let variations := (samplePoints.filter (fun xy =>
      let p1 := img.getpixel xy.1 xy.2
      let p2 := img.getpixel (xy.1 + 1) xy.2
      ((p1.r : ℤ) - p2.r).natAbs + ((p1.g : ℤ) - p2.g).natAbs +
        ((p1.b : ℤ) - p2.b).natAbs > 10)).length
  let samples := samplePoints.length
  let score := if samples > 0 then
      let detail_ratio : ℚ := (variations : ℚ) / (samples : ℚ)
      if detail_ratio > 3/10 then score + 1/4
      else if detail_ratio > 3/20 then score + 3/20 else score
    else score
  let extreme_pixels := (pixels.filter (fun p =>
      min p.r (min p.g p.b) < 5 ∨ max p.r (max p.g p.b) > 250)).length
  let artifact_ratio : ℚ := (extreme_pixels : ℚ) / (pixels.length : ℚ)
  let score := if artifact_ratio < 1/20 then score + 3/20
    else if artifact_ratio < 1/10 then score + 1/10 else score
  let max_score : ℚ := 4 * (3/10)
  min 1 (score / max_score)

/-- `check_style_adherence`: style-specific pixel test over the centre crop. -/
def check_style_adherence (img : PILImage) (style : String) : ℚ :=
  if style = "" then 0
  else
    let region := img.crop (img.width / 4) (img.height / 4)
      (3 * img.width / 4) (pyInt ((img.height : ℚ) * (3/4))).toNat
    let pixels := region.getdata
    if style = "BW" then
      (((pixels.take 100).filter (fun p =>
        ((p.r : ℤ) - p.g).natAbs < 5 ∧ ((p.g : ℤ) - p.b).natAbs < 5)).length : ℚ) / 100
    else if style = "Sepia" then
      (((pixels.take 100).filter (fun p => p.r > p.g ∧ p.g > p.b)).length : ℚ) / 100
    else if style = "Color" then
      (((pixels.take 100).filter (fun p =>
        max (((p.r : ℤ) - p.g).natAbs)
          (max (((p.g : ℤ) - p.b).natAbs) (((p.r : ℤ) - p.b).natAbs)) > 10)).length : ℚ)
        / 100
    else if style = "Painting" then 85/100
    else 1/2

/-- `check_historical_accuracy`: 0 for blank images, 0.85 otherwise. -/
def check_historical_accuracy (img : PILImage) (s : SubjectData) : ℚ :=
  let _ := s
  if (img.getdata.take 100).dedup.length ≤ 1 then 0 else 85/100

/-- `sum(tech_checks.values()) / len(tech_checks)` — the technical score
derived from the boolean checks (`0.0` when the dict is empty). -/
def technical_score (img : PILImage) (expected_resolution : Nat × Nat) : ℚ :=
  let tech_checks := check_technical_requirements img expected_resolution
  if tech_checks ≠ [] then
    (((tech_checks.filter (fun c => c.2)).length : ℚ) / (tech_checks.length : ℚ))
  else 0

/-- `evaluate_portrait`: computes the four axis scores, collects feedback
and issues, and decides pass/fail.  The `%.2f` number formatting inside
the feedback strings is not reproduced.  The `image is None` and
`subject_data is None` guards are unrepresentable (arguments are values
here); the empty-style `ValueError` is the `Except.error` case. -/
def evaluate_portrait (img : PILImage) (s : SubjectData) (style : String)
    (expected_resolution : Nat × Nat) : Except String EvaluationResult :=
  if style = "" then .error "Style cannot be empty"
  else
    let tech_checks := check_technical_requirements img expected_resolution
    let tech_score : ℚ := technical_score img expected_resolution
    let feedback := (tech_checks.filter (fun c => c.2)).map (fun c => "✓ " ++ c.1)
    let issues := (tech_checks.filter (fun c => !c.2)).map (fun c => "✗ " ++ c.1)
    let recommendations :=
      (tech_checks.filter (fun c => !c.2)).map (fun c => "Fix " ++ c.1)
    let visual_score := check_visual_quality img style
    let feedback := if visual_score ≥ MIN_VISUAL_QUALITY_SCORE then
        feedback ++ ["✓ Visual quality"] else feedback
    let issues := if visual_score ≥ MIN_VISUAL_QUALITY_SCORE then issues
        else issues ++ ["✗ Visual quality below threshold"]
    let recommendations := if visual_score ≥ MIN_VISUAL_QUALITY_SCORE then
        recommendations else recommendations ++ ["Regenerate image with improved prompt"]
    let style_score := check_style_adherence img style
    let feedback := if style_score ≥ 8/10 then
        feedback ++ ["✓ Style adherence"] else feedback
    let issues := if style_score ≥ 8/10 then issues
        else issues ++ ["✗ Style adherence low"]
    let accuracy_score := check_historical_accuracy img s
    let feedback := if accuracy_score ≥ MIN_HISTORICAL_ACCURACY_SCORE then
        feedback ++ ["✓ Historical accuracy"] else feedback
    let issues := if accuracy_score ≥ MIN_HISTORICAL_ACCURACY_SCORE then issues
        else issues ++ ["✗ Historical accuracy low"]
    let recommendations := if accuracy_score ≥ MIN_HISTORICAL_ACCURACY_SCORE then
        recommendations else recommendations ++ ["Review era-appropriate details"]
    let scores := [("technical", tech_score), ("visual_quality", visual_score),
      ("style_adherence", style_score), ("historical_accuracy", accuracy_score)]
    let passed := decide (tech_score ≥ 95/100) &&
      decide (visual_score ≥ MIN_VISUAL_QUALITY_SCORE) &&
      decide (accuracy_score ≥ MIN_HISTORICAL_ACCURACY_SCORE)
    .ok { passed := passed, scores := scores, feedback := feedback,
          issues := issues, recommendations := recommendations }

/-! ## Sepia transform (`utils/image_utils.py`) -/

/-- The body of the per-pixel loop of `convert_to_sepia`: luma, fixed sepia
matrix applied to the luma, clamp at 255, and (for `intensity < 1.0`) a
linear blend back toward the luma gray. -/
def sepiaPixel (intensity : ℚ) (p : RGB) : RGB :=
  let gray : ℤ := pyInt ((299/1000) * (p.r : ℚ) + (587/1000) * (p.g : ℚ) +
    (114/1000) * (p.b : ℚ))
  let tr : ℤ := pyInt ((393/1000) * (gray : ℚ) + (769/1000) * (gray : ℚ) +
    (189/1000) * (gray : ℚ))
  let tg : ℤ := pyInt ((349/1000) * (gray : ℚ) + (686/1000) * (gray : ℚ) +
    (168/1000) * (gray : ℚ))
  let tb : ℤ := pyInt ((272/1000) * (gray : ℚ) + (534/1000) * (gray : ℚ) +
    (131/1000) * (gray : ℚ))
  let tr := min 255 tr
  let tg := min 255 tg
  let tb := min 255 tb
  if intensity < 1 then
    { r := (pyInt ((gray : ℚ) + ((tr : ℚ) - (gray : ℚ)) * intensity)).toNat
      g := (pyInt ((gray : ℚ) + ((tg : ℚ) - (gray : ℚ)) * intensity)).toNat
      b := (pyInt ((gray : ℚ) + ((tb : ℚ) - (gray : ℚ)) * intensity)).toNat }
  else
    { r := tr.toNat, g := tg.toNat, b := tb.toNat }

/-- `convert_to_sepia` on the pixel list of an RGB image; the out-of-range
intensity guard raises `ValueError`. -/
def convert_to_sepia (intensity : ℚ) (pixels : List RGB) :
    Except String (List RGB) :=
  if ¬(0 ≤ intensity ∧ intensity ≤ 1) then
    .error "Intensity must be between 0.0 and 1.0"
  else
    .ok (pixels.map (sepiaPixel intensity))

/-! ## Filenames (`utils/validators.py` and `core/generator.py`) -/

/-- Helper for Python `str.split()` with no separator: split a character
list on whitespace runs, dropping empty fields.  `acc` carries the current
word reversed. -/
def splitWSAux : List Char → List Char → List (List Char)
  | [], acc => if acc.isEmpty then [] else [acc.reverse]
  | c :: cs, acc =>
      if pyIsSpace c then
        if acc.isEmpty then splitWSAux cs []
        else acc.reverse :: splitWSAux cs []
      else splitWSAux cs (c :: acc)

/-- Python `str.split()` (no separator). -/
def pySplit (s : String) : List String :=
  (splitWSAux s.toList []).map String.mk

/-- Python `str.capitalize()`: first character upper-cased, the rest of the
word lower-cased (ASCII). -/
def pyCapitalize (w : String) : String :=
  match w.toList with
  | [] => ""
  | c :: rest => String.mk (c.toUpper :: rest.map Char.toLower)

/-- `PortraitGenerator._create_filename` (identical in
`generator_enhanced.py`): keep alphanumerics and whitespace, split into
words, `capitalize` each word, join, and append the style suffix.  The
ASCII fragment of Python `str.isalnum` is modelled. -/
def create_filename (name style : String) : String :=
  let clean_name := String.mk
    (name.toList.filter (fun c => c.isAlphanum || pyIsSpace c))
  let parts := pySplit clean_name
  let filename := String.join (parts.map pyCapitalize)
  filename ++ "_" ++ style

/-- `validators.sanitize_filename` on ASCII input, where the NFKD
normalisation and the `ascii`-with-`ignore` encoding act as the identity
(non-ASCII characters are dropped, matching the `ignore` behaviour for
characters with no decomposition): remove spaces, keep only
`[A-Za-z0-9_-]`, then upper-case exactly the first remaining character. -/
def sanitize_filename (name : String) : String :=
  let ascii := name.toList.filter (fun c => c.val < 128)
  let nospace := ascii.filter (fun c => c ≠ ' ')
  let kept := nospace.filter (fun c => c.isAlphanum || c = '-' || c = '_')
  match kept with
  | [] => ""
  | c :: rest => String.mk (c.toUpper :: rest)

/-! ## Output files and `_generate_version` (`core/generator.py`) -/

/-- A file on disk: opaque content plus a modification time. -/
structure FileData where
  content : String
  mtime : Nat
deriving DecidableEq

/-- The output directory, as a map from file name to file data. -/
def FS : Type := String → Option FileData

/-- Writing a file stamps it with the current clock. -/
def fsWrite (fs : FS) (path content : String) (clock : Nat) : FS :=
  fun p => if p = path then some ⟨content, clock⟩ else fs p

/-- `PortraitGenerator._generate_version`.  Images are opaque strings; the
prompt builder, image backend, style transform and overlay engine are the
explicit collaborator parameters `promptOf`, `backend`, `transform` and
`overlay`.  If the output image already exists and `force_regenerate` is
false, the existing paths are returned with no backend call and no write;
otherwise the prompt sidecar is written, the image is generated,
transformed for BW/Sepia, overlaid and saved (a backend failure raises
`RuntimeError` after the prompt write, as in the source). -/
def generate_version (promptOf : String → String → String)
    (backend : String → Except String String)
    (transform : String → String → String)
    (overlay : String → String → String → String)
    (clock : Nat) (fs : FS) (s : SubjectData) (style : String)
    (force_regenerate : Bool) : FS × Except String (String × String) :=
  let filename_base := create_filename s.name style
  let image_path := filename_base ++ ".png"
  let prompt_path := filename_base ++ "_prompt.md"
  if !force_regenerate && (fs image_path).isSome then
    (fs, .ok (image_path, prompt_path))
  else
    let prompt := promptOf s.name style
    let fs1 := fsWrite fs prompt_path prompt clock
    match backend prompt with
    | .error e => (fs1, .error ("Failed to generate " ++ style ++ " version: " ++ e))
    | .ok base_image =>
        let styled := if style = "BW" || style = "Sepia" then
            transform base_image style else base_image
        let final := overlay styled s.name s.formatted_years
        (fsWrite fs1 image_path final (clock + 1), .ok (image_path, prompt_path))

/-! ## Generation orchestrator (`core/generator.py`) -/

/-- `PortraitResult` (the `generation_time_seconds` wall-clock field is
not modelled). -/
structure PortraitResult where
  subject : String
  files : List (String × String)
  prompts : List (String × String)
  metadata : SubjectData
  evaluation : List (String × EvaluationResult)
  success : Bool
  errors : List String
deriving DecidableEq

/-- `PortraitGenerator.STYLES`. -/
def STYLES : List String := ["BW", "Sepia", "Color", "Painting"]

/-- The synthetic failed evaluation attached when a style fails. -/
def failedEvaluation (msg : String) : EvaluationResult :=
  { passed := false, scores := [], feedback := [], issues := [msg],
    recommendations := ["Retry generation"] }

/-- Accumulator of the per-style loop of `generate_portrait`. -/
structure GenState where
  files : List (String × String)
  prompts : List (String × String)
  evaluation : List (String × EvaluationResult)
  errors : List String
deriving DecidableEq

/-- One iteration of the per-style loop: generate the version, then open
and evaluate it; any failure in either step is captured as a per-style
error plus a synthetic failed evaluation, isolated from sibling styles.
`gen` abstracts `_generate_version` and `evalO` abstracts
`Image.open` + `evaluate_portrait` on the saved file. -/
def perStyleStep (gen : SubjectData → String → Except String (String × String))
    (evalO : String → Except String EvaluationResult) (subject_data : SubjectData)
    (st : GenState) (style : String) : GenState :=
  match gen subject_data style with
  | .error e =>
      let msg := "Failed to generate " ++ style ++ " portrait: " ++ e
      { st with errors := st.errors ++ [msg],
                evaluation := st.evaluation ++ [(style, failedEvaluation msg)] }
  | .ok (file_path, prompt_path) =>
      let st := { st with files := st.files ++ [(style, file_path)],
                          prompts := st.prompts ++ [(style, prompt_path)] }
      match evalO file_path with
      | .ok ev => { st with evaluation := st.evaluation ++ [(style, ev)] }
      | .error e =>
          let msg := "Failed to generate " ++ style ++ " portrait: " ++ e
          { st with errors := st.errors ++ [msg],
                    evaluation := st.evaluation ++ [(style, failedEvaluation msg)] }

/-- `PortraitGenerator.generate_portrait`.  The `ValueError` cases for an
empty name or invalid styles escape as `Except.error`; a research failure
(or any other pipeline exception) is caught into a failed
`PortraitResult`.  `success = files non-empty and errors empty`. -/
def generate_portrait (research : String → Except String SubjectData)
    (gen : SubjectData → String → Except String (String × String))
    (evalO : String → Except String EvaluationResult)
    (subject_name : String) (styles : Option (List String)) :
    Except String PortraitResult :=
  if subject_name = "" || pyStrip subject_name = "" then
    .error "Subject name cannot be empty"
  else
    let stylesList := match styles with | none => STYLES | some ss => ss
    if (match styles with
        | none => false
        | some ss => ss.any (fun s => !STYLES.contains s)) then
      .error "Invalid styles"
    else
      match research subject_name with
      | .error e =>
          .ok { subject := subject_name, files := [], prompts := [],
                metadata := { name := subject_name, birth_year := 0,
                              death_year := none, era := "Unknown" },
                evaluation := [], success := false,
                errors := ["Portrait generation failed: " ++ e] }
      | .ok subject_data =>
          let final := stylesList.foldl (perStyleStep gen evalO subject_data)
            { files := [], prompts := [], evaluation := [], errors := [] }
          .ok { subject := subject_name, files := final.files,
                prompts := final.prompts, metadata := subject_data,
                evaluation := final.evaluation,
                success := decide (final.files ≠ []) && final.errors.isEmpty,
                errors := final.errors }

/-- The per-subject body of the batch loop: any exception escaping
`generate_portrait` is converted to a failed `PortraitResult`. -/
def batchEntry (research : String → Except String SubjectData)
    (gen : SubjectData → String → Except String (String × String))
    (evalO : String → Except String EvaluationResult)
    (styles : Option (List String)) (name : String) : PortraitResult :=
  match generate_portrait research gen evalO name styles with
  | .ok r => r
  | .error e =>
      { subject := name, files := [], prompts := [],
        metadata := { name := name, birth_year := 0, death_year := none,
                      era := "Unknown" },
        evaluation := [], success := false, errors := [e] }

/-- `PortraitGenerator.generate_batch`: sequential map over the subjects
with per-subject exception capture; only an empty subject list raises. -/
def generate_batch (research : String → Except String SubjectData)
    (gen : SubjectData → String → Except String (String × String))
    (evalO : String → Except String EvaluationResult)
    (subject_names : List String) (styles : Option (List String)) :
    Except String (List PortraitResult) :=
  if subject_names = [] then .error "Subject names list cannot be empty"
  else .ok (subject_names.map (batchEntry research gen evalO styles))

/-! ## Model capability registry (`config/model_configs.py`) -/

/-- `ModelCapabilities` dataclass. -/
structure ModelCapabilities where
  google_search_grounding : Bool
  multi_image_reference : Bool
  max_reference_images : Nat
  internal_reasoning : Bool
  physics_aware_synthesis : Bool
  native_text_rendering : Bool
  iterative_refinement : Bool
  supported_resolutions : List String
  max_resolution : String
  typical_generation_time : ℚ
  supports_batch : Bool
deriving DecidableEq

/-- `GenerationConfig` dataclass. -/
structure GenerationConfig where
  enable_pre_generation_checks : Bool
  enable_iterative_refinement : Bool
  max_internal_iterations : Nat
  quality_threshold : ℚ
  confidence_threshold : ℚ
  enable_search_grounding : Bool
  enable_reference_images : Bool
  max_reference_images_to_use : Nat
  max_generation_attempts : Nat
  enable_smart_retry : Bool
deriving DecidableEq

/-- `EvaluationConfig` dataclass. -/
structure EvaluationConfig where
  use_holistic_reasoning : Bool
  reasoning_passes : Nat
  autonomous_error_detection : Bool
  visual_coherence_checking : Bool
  enable_fact_checking : Bool
  technical_weight : ℚ
  visual_quality_weight : ℚ
  style_adherence_weight : ℚ
  historical_accuracy_weight : ℚ
deriving DecidableEq

/-- `ModelProfile` (the presentation-only `display_name`, `description`
and `release_date` strings are omitted). -/
structure ModelProfile where
  model_name : String
  capabilities : ModelCapabilities
  generation : GenerationConfig
  evaluation : EvaluationConfig
  is_recommended : Bool
deriving DecidableEq

/-- The static `MODEL_PROFILES` registry (insertion-ordered dict). -/
def MODEL_PROFILES : List (String × ModelProfile) :=
  [("gemini-3-pro-image-preview",
    { model_name := "gemini-3-pro-image-preview"
      is_recommended := true
      capabilities :=
        { google_search_grounding := true, multi_image_reference := true,
          max_reference_images := 14, internal_reasoning := true,
          physics_aware_synthesis := true, native_text_rendering := true,
          iterative_refinement := true,
          supported_resolutions := ["1024x1024", "1536x1536", "2048x2048", "4096x4096"],
          max_resolution := "4096x4096", typical_generation_time := 45,
          supports_batch := false }
      generation :=
        { enable_pre_generation_checks := true, enable_iterative_refinement := true,
          max_internal_iterations := 3, quality_threshold := 9/10,
          confidence_threshold := 85/100, enable_search_grounding := true,
          enable_reference_images := true, max_reference_images_to_use := 5,
          max_generation_attempts := 2, enable_smart_retry := true }
      evaluation :=
        { use_holistic_reasoning := true, reasoning_passes := 2,
          autonomous_error_detection := true, visual_coherence_checking := true,
          enable_fact_checking := true, technical_weight := 1/4,
          visual_quality_weight := 1/4, style_adherence_weight := 1/4,
          historical_accuracy_weight := 1/4 } }),
   ("gemini-exp-1206",
    { model_name := "gemini-exp-1206"
      is_recommended := false
      capabilities :=
        { google_search_grounding := false, multi_image_reference := false,
          max_reference_images := 0, internal_reasoning := false,
          physics_aware_synthesis := false, native_text_rendering := false,
          iterative_refinement := false, supported_resolutions := ["1024x1024"],
          max_resolution := "1024x1024", typical_generation_time := 30,
          supports_batch := false }
      generation :=
        { enable_pre_generation_checks := false, enable_iterative_refinement := false,
          max_internal_iterations := 1, quality_threshold := 8/10,
          confidence_threshold := 3/4, enable_search_grounding := false,
          enable_reference_images := false, max_reference_images_to_use := 0,
          max_generation_attempts := 2, enable_smart_retry := false }
      evaluation :=
        { use_holistic_reasoning := false, reasoning_passes := 1,
          autonomous_error_detection := false, visual_coherence_checking := false,
          enable_fact_checking := false, technical_weight := 1/4,
          visual_quality_weight := 1/4, style_adherence_weight := 1/4,
          historical_accuracy_weight := 1/4 } }),
   ("gemini-2.0-flash-exp",
    { model_name := "gemini-2.0-flash-exp"
      is_recommended := false
      capabilities :=
        { google_search_grounding := false, multi_image_reference := false,
          max_reference_images := 0, internal_reasoning := false,
          physics_aware_synthesis := false, native_text_rendering := true,
          iterative_refinement := false, supported_resolutions := ["1024x1024"],
          max_resolution := "1024x1024", typical_generation_time := 20,
          supports_batch := false }
      generation :=
        { enable_pre_generation_checks := false, enable_iterative_refinement := false,
          max_internal_iterations := 1, quality_threshold := 3/4,
          confidence_threshold := 7/10, enable_search_grounding := false,
          enable_reference_images := false, max_reference_images_to_use := 0,
          max_generation_attempts := 2, enable_smart_retry := false }
      evaluation :=
        { use_holistic_reasoning := false, reasoning_passes := 1,
          autonomous_error_detection := false, visual_coherence_checking := false,
          enable_fact_checking := false, technical_weight := 1/4,
          visual_quality_weight := 1/4, style_adherence_weight := 1/4,
          historical_accuracy_weight := 1/4 } })]

/-- `get_model_profile`: raises `ValueError` for unsupported models. -/
def get_model_profile (model_name : String) : Except String ModelProfile :=
  match MODEL_PROFILES.lookup model_name with
  | some p => .ok p
  | none => .error ("Unsupported model: " ++ model_name)

/-! ## CompatibilityManager (`compatibility.py`) -/

/-- The manager state after `__init__`. -/
structure CompatibilityManager where
  model_name : String
  profile : Option ModelProfile
deriving DecidableEq

/-- `_get_profile_safe`: catch the `ValueError` into `None`. -/
def get_profile_safe (model_name : String) : Option ModelProfile :=
  match get_model_profile model_name with
  | .ok p => some p
  | .error _ => none

/-- `CompatibilityManager.__init__`: a total constructor — the profile
lookup failure is absorbed by `_get_profile_safe`, so construction never
raises. -/
def mkCompatibilityManager (model_name : String) : CompatibilityManager :=
  { model_name := model_name, profile := get_profile_safe model_name }

/-- `getattr(profile.capabilities, feature, False)` restricted to the
boolean capability fields (the only ones a feature query can name and
still produce a boolean). -/
def capabilityAttr (c : ModelCapabilities) (feature : String) : Bool :=
  if feature = "google_search_grounding" then c.google_search_grounding
  else if feature = "multi_image_reference" then c.multi_image_reference
  else if feature = "internal_reasoning" then c.internal_reasoning
  else if feature = "physics_aware_synthesis" then c.physics_aware_synthesis
  else if feature = "native_text_rendering" then c.native_text_rendering
  else if feature = "iterative_refinement" then c.iterative_refinement
  else if feature = "supports_batch" then c.supports_batch
  else false

/-- `CompatibilityManager.supports_feature`. -/
def supports_feature (m : CompatibilityManager) (feature : String) : Bool :=
  match m.profile with
  | none => false
  | some p => capabilityAttr p.capabilities feature

/-- The dictionary returned by `get_generation_config`. -/
structure GenConfigDict where
  enable_pre_generation_checks : Bool
  enable_iterative_refinement : Bool
  max_internal_iterations : Nat
  enable_search_grounding : Bool
  enable_reference_images : Bool
  max_reference_images_to_use : Nat
  max_generation_attempts : Nat
  enable_smart_retry : Bool
deriving DecidableEq

/-- The all-disabled fallback generation config for unknown models. -/
def fallbackGenerationConfig : GenConfigDict :=
  { enable_pre_generation_checks := false, enable_iterative_refinement := false,
    max_internal_iterations := 1, enable_search_grounding := false,
    enable_reference_images := false, max_reference_images_to_use := 0,
    max_generation_attempts := 2, enable_smart_retry := false }

/-- `CompatibilityManager.get_generation_config`. -/
def get_generation_config (m : CompatibilityManager) : GenConfigDict :=
  match m.profile with
  | none => fallbackGenerationConfig
  | some p =>
      { enable_pre_generation_checks := p.generation.enable_pre_generation_checks
        enable_iterative_refinement := p.generation.enable_iterative_refinement
        max_internal_iterations := p.generation.max_internal_iterations
        enable_search_grounding := p.generation.enable_search_grounding
        enable_reference_images := p.generation.enable_reference_images
        max_reference_images_to_use := p.generation.max_reference_images_to_use
        max_generation_attempts := p.generation.max_generation_attempts
        enable_smart_retry := p.generation.enable_smart_retry }

/-- The dictionary returned by `get_evaluation_config`. -/
structure EvalConfigDict where
  use_holistic_reasoning : Bool
  reasoning_passes : Nat
  autonomous_error_detection : Bool
  visual_coherence_checking : Bool
  enable_fact_checking : Bool
deriving DecidableEq

/-- The all-disabled fallback evaluation config for unknown models. -/
def fallbackEvaluationConfig : EvalConfigDict :=
  { use_holistic_reasoning := false, reasoning_passes := 1,
    autonomous_error_detection := false, visual_coherence_checking := false,
    enable_fact_checking := false }

/-- `CompatibilityManager.get_evaluation_config`. -/
def get_evaluation_config (m : CompatibilityManager) : EvalConfigDict :=
  match m.profile with
  | none => fallbackEvaluationConfig
  | some p =>
      { use_holistic_reasoning := p.evaluation.use_holistic_reasoning
        reasoning_passes := p.evaluation.reasoning_passes
        autonomous_error_detection := p.evaluation.autonomous_error_detection
        visual_coherence_checking := p.evaluation.visual_coherence_checking
        enable_fact_checking := p.evaluation.enable_fact_checking }

/-! ## Overlay compositor (`core/overlay.py`) -/

/-- `TitleOverlayEngine.calculate_font_size`: raises `ValueError` for a
non-positive image height (heights are naturals here, so `= 0`) or an
out-of-range bar height ratio; otherwise derives the name font size as
`max(12, 0.4·bar_height)` and the years font size as
`max(10, 0.7·name_size)`. -/
def calculate_font_size (image_height : Nat) (bar_height_ratio : ℚ) :
    Except String (Nat × Nat) :=
  if image_height = 0 then .error "Image height must be positive"
  else if ¬(0 < bar_height_ratio ∧ bar_height_ratio < 1) then
    .error "Bar height ratio must be between 0.0 and 1.0"
  else
    let bar_height := (pyInt ((image_height : ℚ) * bar_height_ratio)).toNat
    let name_font_size := max 12 (pyInt ((bar_height : ℚ) * (4/10))).toNat
    let years_font_size := max 10 (pyInt ((name_font_size : ℚ) * (7/10))).toNat
    .ok (name_font_size, years_font_size)

/-- `TitleOverlayEngine.add_overlay`.  The argument validation is
transcribed exactly, and so is the unconditional `calculate_font_size`
call made after the bar is drawn (it sits outside the font try/except, so
its `ValueError` for a zero-height image propagates out).  The remaining
drawing and alpha-compositing steps depend on system font files, so they
are abstracted as the total collaborator `render`; PIL raises in none of
them for valid images. -/
def add_overlay (render : PILImage → String → String → ℚ → ℚ → PILImage)
    (image : Option PILImage) (name years : String)
    (bar_opacity bar_height_ratio : ℚ) : Except String PILImage :=
  match image with
  | none => .error "Image cannot be None"
  | some img =>
      if name = "" || pyStrip name = "" then .error "Name cannot be empty"
      else if years = "" || pyStrip years = "" then .error "Years cannot be empty"
      else if ¬(0 ≤ bar_opacity ∧ bar_opacity ≤ 1) then
        .error "Bar opacity must be between 0.0 and 1.0"
      else if ¬(0 < bar_height_ratio ∧ bar_height_ratio < 1) then
        .error "Bar height ratio must be between 0.0 and 1.0"
      else
        match calculate_font_size img.height bar_height_ratio with
        | .error e => .error e
        | .ok _ => .ok (render img name years bar_opacity bar_height_ratio)

/-! ## Image generation entry point (`utils/gemini_client.py`) -/

/-- The distinct failure cases of `generate_image`. -/
inductive GenError where
  | emptyPrompt
  | whitespacePrompt
  | invalidRatio (ratio : String)
  | backendFailure (msg : String)
deriving DecidableEq

/-- `GenerationResult` (image bytes opaque; reasoning metadata omitted). -/
structure GenerationResult where
  image : String
  confidence_score : ℚ
  iterations_used : Nat
deriving DecidableEq

/-- The client flags read by `_enhance_prompt` and `_detect_capabilities`. -/
structure ClientFlags where
  enable_grounding : Bool
  enable_reasoning : Bool
  supports_grounding : Bool
  supports_reasoning : Bool
deriving DecidableEq

/-- `_enhance_prompt`: append the capability-gated instruction block. -/
def enhance_prompt (f : ClientFlags) (prompt : String)
    (enable_iteration : Bool) (max_iterations : Nat) : String :=
  let enhancements : List String := []
  let enhancements := if f.enable_reasoning && f.supports_reasoning then
    enhancements ++ ["Use your internal reasoning to ensure accuracy and quality. Think through the composition before finalizing."]
    else enhancements
  let enhancements := if enable_iteration && decide (max_iterations > 1) then
    enhancements ++ ["Perform internal quality checks and refine up to " ++
      toString max_iterations ++ " times if needed to achieve high quality."]
    else enhancements
  let enhancements := if f.enable_grounding && f.supports_grounding then
    enhancements ++ ["Use Google Search to verify historical accuracy and facts."]
    else enhancements
  let enhancements := if f.supports_reasoning then
    enhancements ++ ["Ensure visual coherence with physics-aware synthesis: correct lighting, shadows, proportions, and anatomical accuracy."]
    else enhancements
  if enhancements ≠ [] then
    prompt ++ "\n\nINSTRUCTIONS:\n" ++
      String.intercalate "\n" (enhancements.map (fun e => "- " ++ e))
  else prompt

/-- The closed set of accepted aspect ratios. -/
def valid_ratios : List String := ["1:1", "3:4", "4:3", "9:16", "16:9"]

/-- Result of a `generate_image` call, instrumented with the number of
backend invocations performed. -/
structure GenOutcome where
  result : Except GenError GenerationResult
  backend_calls : Nat

/-- `GeminiImageClient.generate_image`: validate the prompt, validate the
aspect ratio against the closed set, enhance the prompt, then make the
single backend call; backend failures become `RuntimeError`. -/
def generate_image (f : ClientFlags)
    (backend : String → String → Except String String)
    (prompt aspect_ratio : String) (enable_iteration : Bool)
    (max_iterations : Nat) : GenOutcome :=
  if prompt = "" then ⟨.error .emptyPrompt, 0⟩
  else if pyStrip prompt = "" then ⟨.error .whitespacePrompt, 0⟩
  else if !valid_ratios.contains aspect_ratio then
    ⟨.error (.invalidRatio aspect_ratio), 0⟩
  else
    let enhanced := enhance_prompt f prompt enable_iteration max_iterations
    match backend enhanced aspect_ratio with
    | .error e => ⟨.error (.backendFailure ("Image generation failed: " ++ e)), 1⟩
    | .ok img =>
        ⟨.ok { image := img, confidence_score := 9/10, iterations_used := 1 }, 1⟩

/-! ## Concrete fixtures used in witnesses and examples -/

/-- A subject producing exactly two blocking issues with an invalid style:
the name is too short and (paired with style "Watercolor") the style check
fails; being born before 1800 adds exactly one warning. -/
def preflightSubject : SubjectData := ⟨"Al", 1500, none, "19th Century"⟩

/-- A prompt long enough to pass the length check and mentioning both the
subject name and the era. -/
def preflightPrompt : String :=
  "Portrait of Al, a figure of the 19th Century, shown in period-appropriate formal attire."

/-- A trivial prompt builder collaborator. -/
def cPromptOf : String → String → String := fun _ _ => "prompt"

/-- A backend collaborator that always succeeds. -/
def cBackend : String → Except String String := fun _ => .ok "imagebytes"

/-- A style transform collaborator (identity). -/
def cTransform : String → String → String := fun i _ => i

/-- An overlay collaborator (identity). -/
def cOverlay : String → String → String → String := fun i _ _ => i

/-- An empty output directory. -/
def emptyFS : FS := fun _ => none

/-- An output directory already holding the BW portrait of Alan Turing,
written at time 5. -/
def witnessFS : FS :=
  fun p => if p = "AlanTuring_BW.png" then some ⟨"imagebytes", 5⟩ else none

/-- An overlay renderer collaborator (identity on the image). -/
def cRender : PILImage → String → String → ℚ → ℚ → PILImage :=
  fun img _ _ _ _ => img

/-- A 1×1 black test image. -/
def testImage : PILImage := ⟨1, 1, "RGB", [[⟨0, 0, 0⟩]]⟩

/-- Client flags with every capability on. -/
def cFlags : ClientFlags := ⟨true, true, true, true⟩

/-- An image backend collaborator that always succeeds. -/
def cImgBackend : String → Except String String := fun _ => .ok "imagebytes"

/-- An image backend collaborator for `generate_image` (prompt and aspect
ratio arguments) that always succeeds. -/
def cImgBackend2 : String → String → Except String String := fun _ _ => .ok "imagebytes"

/-- A researcher collaborator that fails exactly for the subject "Bad". -/
def cResearch : String → Except String SubjectData :=
  fun n => if n = "Bad" then .error "research failed"
           else .ok ⟨n, 1815, some 1852, "19th Century"⟩

/-- A per-style generation collaborator that always succeeds. -/
def cGen : SubjectData → String → Except String (String × String) :=
  fun _ st => .ok (st ++ ".png", st ++ "_prompt.md")

/-- An evaluation collaborator that always succeeds. -/
def cEvalO : String → Except String EvaluationResult :=
  fun _ => .ok ⟨true, [], [], [], []⟩

/-! # Theorems

Shared structural lemmas about `validate`, then one theorem per claim. -/

lemma validate_fact_check_results (fc hg : Bool) (ground : String → Option String)
    (s : SubjectData) (style prompt : String) (refs : List ReferenceImage) :
    (validate fc hg ground s style prompt refs).fact_check_results =
      if fc then fact_check_subject hg ground s else [] := by
  by_cases h : refs = [] <;> simp [validate, h]

lemma validate_issues_eq (fc hg : Bool) (ground : String → Option String)
    (s : SubjectData) (style prompt : String) (refs : List ReferenceImage) :
    (validate fc hg ground s style prompt refs).issues =
      validate_subject_data s ++
        factCheckIssues (if fc then fact_check_subject hg ground s else []) ++
        validate_style_issues style ++ (validate_prompt prompt s).1 ++
        (if refs = [] then [] else (validate_reference_images refs).issues) := by
  by_cases h : refs = [] <;> simp [validate, h]

lemma validate_warnings_eq (fc hg : Bool) (ground : String → Option String)
    (s : SubjectData) (style prompt : String) (refs : List ReferenceImage) :
    (validate fc hg ground s style prompt refs).warnings =
      (validate_prompt prompt s).2 ++
        (if refs = [] then [] else (validate_reference_images refs).warnings) ++
        check_common_pitfalls s style := by
  by_cases h : refs = [] <;> simp [validate, h]

lemma validate_confidence_eq (fc hg : Bool) (ground : String → Option String)
    (s : SubjectData) (style prompt : String) (refs : List ReferenceImage) :
    (validate fc hg ground s style prompt refs).confidence =
      calculate_confidence (validate fc hg ground s style prompt refs).issues
        (validate fc hg ground s style prompt refs).warnings
        (validate fc hg ground s style prompt refs).fact_check_results := by
  by_cases h : refs = [] <;> simp [validate, h]

lemma validate_is_valid_eq (fc hg : Bool) (ground : String → Option String)
    (s : SubjectData) (style prompt : String) (refs : List ReferenceImage) :
    (validate fc hg ground s style prompt refs).is_valid =
      (((validate fc hg ground s style prompt refs).issues.length == 0) &&
        decide ((validate fc hg ground s style prompt refs).confidence > 1/2)) := by
  by_cases h : refs = [] <;> simp [validate, h]

lemma calculate_confidence_eq (issues warnings : List String)
    (factRes : List (String × Bool)) :
    calculate_confidence issues warnings factRes =
      max 0 (min 1 ((1 : ℚ) - (issues.length : ℚ) * (1/4)
        - (warnings.length : ℚ) * (1/20)
        - (failedChecks factRes : ℚ) * (3/20))) := rfl

/-- **C1.**  For every list of blocking issues, warnings and fact-check
results reached by `validate`, the confidence equals
`max(0, min(1, 1 - 0.25·issues - 0.05·warnings - 0.15·failed))` and
`is_valid` equals (no issues AND confidence > 0.5); in particular, an
input producing 2 blocking issues, 1 warning and 0 failed fact-checks
yields confidence 0.45 and `is_valid = false`. -/
theorem preflight_confidence_formula :
    (∀ (fc hg : Bool) (ground : String → Option String) (s : SubjectData)
      (style prompt : String) (refs : List ReferenceImage),
      (validate fc hg ground s style prompt refs).confidence =
        max 0 (min 1 ((1 : ℚ)
          - ((validate fc hg ground s style prompt refs).issues.length : ℚ) * (1/4)
          - ((validate fc hg ground s style prompt refs).warnings.length : ℚ) * (1/20)
          - (failedChecks (validate fc hg ground s style prompt refs).fact_check_results : ℚ)
              * (3/20))) ∧
      (validate fc hg ground s style prompt refs).is_valid =
        (((validate fc hg ground s style prompt refs).issues.length == 0) &&
          decide ((validate fc hg ground s style prompt refs).confidence > 1/2))) ∧
    (validate false true (fun _ => none) preflightSubject "Watercolor" preflightPrompt
        []).issues.length = 2 ∧
    (validate false true (fun _ => none) preflightSubject "Watercolor" preflightPrompt
        []).warnings.length = 1 ∧
    failedChecks (validate false true (fun _ => none) preflightSubject "Watercolor"
        preflightPrompt []).fact_check_results = 0 ∧
    (validate false true (fun _ => none) preflightSubject "Watercolor" preflightPrompt
        []).confidence = 9/20 ∧
    (validate false true (fun _ => none) preflightSubject "Watercolor" preflightPrompt
        []).is_valid = false := by
  have hi : (validate false true (fun _ => none) preflightSubject "Watercolor"
      preflightPrompt []).issues.length = 2 := by
    rw [validate_issues_eq]; decide
  have hw : (validate false true (fun _ => none) preflightSubject "Watercolor"
      preflightPrompt []).warnings.length = 1 := by
    rw [validate_warnings_eq]; decide
  have hf : (validate false true (fun _ => none) preflightSubject "Watercolor"
      preflightPrompt []).fact_check_results = [] := by
    rw [validate_fact_check_results]; rfl
  have hc : (validate false true (fun _ => none) preflightSubject "Watercolor"
      preflightPrompt []).confidence = 9/20 := by
    rw [validate_confidence_eq]
    unfold calculate_confidence failedChecks
    rw [hi, hw, hf]
    norm_num
  refine ⟨fun fc hg ground s style prompt refs =>
      ⟨by rw [validate_confidence_eq, calculate_confidence_eq], validate_is_valid_eq _ _ _ _ _ _ _⟩,
    hi, hw, by rw [hf]; rfl, hc, ?_⟩
  rw [validate_is_valid_eq, hi, hc]
  norm_num

lemma factCheckIssues_length (l : List (String × Bool)) :
    (factCheckIssues l).length = failedChecks l := by
  unfold factCheckIssues failedChecks
  simp

/-- **C10.**  Every failed fact-check is also appended to the blocking
issues before confidence is computed: if `(k, false)` appears in the
fact-check results then the corresponding issue string is in `issues`,
`is_valid` is false (the issues list is non-empty regardless of the
confidence value), and the confidence equals the clamped
`1 - 0.25·m - 0.05·warnings - 0.40·failed` where `m` counts the
non-fact-check issues — i.e. each failed check costs 0.25 + 0.15 = 0.40. -/
theorem fact_check_failure_blocks_validation
    (hg : Bool) (ground : String → Option String) (s : SubjectData)
    (style prompt : String) (refs : List ReferenceImage) (k : String)
    (hk : (k, false) ∈ (validate true hg ground s style prompt refs).fact_check_results) :
    ("Fact-check failed: " ++ k) ∈ (validate true hg ground s style prompt refs).issues ∧
    (validate true hg ground s style prompt refs).is_valid = false ∧
    ∃ m : Nat,
      (validate true hg ground s style prompt refs).issues.length =
        m + failedChecks (validate true hg ground s style prompt refs).fact_check_results ∧
      (validate true hg ground s style prompt refs).confidence =
        max 0 (min 1 ((1 : ℚ) - (m : ℚ) * (1/4)
          - ((validate true hg ground s style prompt refs).warnings.length : ℚ) * (1/20)
          - (failedChecks (validate true hg ground s style prompt refs).fact_check_results : ℚ)
              * (2/5))) := by
  have hmemF : ("Fact-check failed: " ++ k) ∈
      factCheckIssues (validate true hg ground s style prompt refs).fact_check_results := by
    unfold factCheckIssues
    exact List.mem_map_of_mem _ (List.mem_filter.mpr ⟨hk, rfl⟩)
  rw [validate_fact_check_results] at hmemF
  have hmem : ("Fact-check failed: " ++ k) ∈
      (validate true hg ground s style prompt refs).issues := by
    rw [validate_issues_eq]
    simp only [List.mem_append]
    exact Or.inl (Or.inl (Or.inl (Or.inr hmemF)))
  refine ⟨hmem, ?_, ?_⟩
  · have hne : (validate true hg ground s style prompt refs).issues.length ≠ 0 := by
      intro h0
      rw [List.length_eq_zero] at h0
      exact absurd (h0 ▸ hmem) (List.not_mem_nil _)
    rw [validate_is_valid_eq]
    simp [hne]
  · refine ⟨(validate_subject_data s).length + (validate_style_issues style).length +
      ((validate_prompt prompt s).1).length +
      (if refs = [] then [] else (validate_reference_images refs).issues).length, ?_, ?_⟩
    · rw [validate_issues_eq, validate_fact_check_results]
      simp [factCheckIssues_length]
      omega
    · rw [validate_confidence_eq, calculate_confidence_eq]
      rw [validate_issues_eq, validate_fact_check_results]
      simp only [if_true, List.length_append, factCheckIssues_length]
      congr 2
      push_cast
      ring

/-- Witness for C10: with a grounding backend answering "incorrect", the
birth-year fact-check fails and blocks validation. -/
theorem fact_check_failure_blocks_validation_witness :
    ("Fact-check failed: " ++ "birth_year") ∈
      (validate true true (fun _ => some "incorrect")
        ⟨"Ada Lovelace", 1815, some 1852, "19th Century"⟩ "BW" "x" []).issues ∧
    (validate true true (fun _ => some "incorrect")
        ⟨"Ada Lovelace", 1815, some 1852, "19th Century"⟩ "BW" "x" []).is_valid = false ∧
    ∃ m : Nat,
      (validate true true (fun _ => some "incorrect")
          ⟨"Ada Lovelace", 1815, some 1852, "19th Century"⟩ "BW" "x" []).issues.length =
        m + failedChecks (validate true true (fun _ => some "incorrect")
          ⟨"Ada Lovelace", 1815, some 1852, "19th Century"⟩ "BW" "x" []).fact_check_results ∧
      (validate true true (fun _ => some "incorrect")
          ⟨"Ada Lovelace", 1815, some 1852, "19th Century"⟩ "BW" "x" []).confidence =
        max 0 (min 1 ((1 : ℚ) - (m : ℚ) * (1/4)
          - ((validate true true (fun _ => some "incorrect")
              ⟨"Ada Lovelace", 1815, some 1852, "19th Century"⟩ "BW" "x" []).warnings.length : ℚ)
              * (1/20)
          - (failedChecks (validate true true (fun _ => some "incorrect")
              ⟨"Ada Lovelace", 1815, some 1852, "19th Century"⟩ "BW" "x" []).fact_check_results : ℚ)
              * (2/5))) :=
  fact_check_failure_blocks_validation true (fun _ => some "incorrect")
    ⟨"Ada Lovelace", 1815, some 1852, "19th Century"⟩ "BW" "x" [] "birth_year"
    (by rw [validate_fact_check_results]; decide)

lemma check_visual_quality_style_irrelevant (img : PILImage) (a b : String) :
    check_visual_quality img a = check_visual_quality img b := rfl

/-- **C2.**  The basic evaluator passes a portrait exactly when the
technical score is ≥ 0.95, the visual-quality score is ≥ 0.85 and the
historical-accuracy score is ≥ 0.80; the style-adherence score never
affects the verdict (indeed the verdict is the same for any non-empty
style string). -/
theorem evaluator_pass_thresholds (img : PILImage) (s : SubjectData)
    (style : String) (expected_resolution : Nat × Nat) (h : style ≠ "") :
    ∃ R, evaluate_portrait img s style expected_resolution = Except.ok R ∧
      (R.passed = true ↔
        technical_score img expected_resolution ≥ 95/100 ∧
        check_visual_quality img style ≥ 85/100 ∧
        check_historical_accuracy img s ≥ 80/100) ∧
      (∀ style2, style2 ≠ "" →
        ∃ R2, evaluate_portrait img s style2 expected_resolution = Except.ok R2 ∧
          R2.passed = R.passed) := by
  simp only [evaluate_portrait]
  rw [if_neg h]
  refine ⟨_, rfl, ?_, ?_⟩
  · simp [MIN_VISUAL_QUALITY_SCORE, MIN_HISTORICAL_ACCURACY_SCORE, and_assoc]
  · intro style2 h2
    simp only [evaluate_portrait]
    rw [if_neg h2]
    refine ⟨_, rfl, ?_⟩
    simp only [check_visual_quality_style_irrelevant img style2 style]

/-- Witness for C2 at a concrete 1×1 image. -/
theorem evaluator_pass_thresholds_witness :
    ∃ R, evaluate_portrait ⟨1, 1, "RGB", [[⟨0, 0, 0⟩]]⟩
        ⟨"Ada Lovelace", 1815, some 1852, "19th Century"⟩ "BW" (1, 1) = Except.ok R ∧
      (R.passed = true ↔
        technical_score ⟨1, 1, "RGB", [[⟨0, 0, 0⟩]]⟩ (1, 1) ≥ 95/100 ∧
        check_visual_quality ⟨1, 1, "RGB", [[⟨0, 0, 0⟩]]⟩ "BW" ≥ 85/100 ∧
        check_historical_accuracy ⟨1, 1, "RGB", [[⟨0, 0, 0⟩]]⟩
          ⟨"Ada Lovelace", 1815, some 1852, "19th Century"⟩ ≥ 80/100) ∧
      (∀ style2, style2 ≠ "" →
        ∃ R2, evaluate_portrait ⟨1, 1, "RGB", [[⟨0, 0, 0⟩]]⟩
            ⟨"Ada Lovelace", 1815, some 1852, "19th Century"⟩ style2 (1, 1) =
            Except.ok R2 ∧ R2.passed = R.passed) :=
  evaluator_pass_thresholds ⟨1, 1, "RGB", [[⟨0, 0, 0⟩]]⟩
    ⟨"Ada Lovelace", 1815, some 1852, "19th Century"⟩ "BW" (1, 1) (by decide)

lemma pyInt_intCast (n : ℤ) : pyInt (n : ℚ) = n := by
  unfold pyInt
  split
  · exact Int.floor_intCast n
  · exact Int.ceil_intCast n

lemma pyInt_nonneg {q : ℚ} (h : 0 ≤ q) : 0 ≤ pyInt q := by
  unfold pyInt
  rw [if_pos h]
  exact Int.floor_nonneg.mpr h

lemma pyInt_mono {a b : ℚ} (ha : 0 ≤ a) (hab : a ≤ b) : pyInt a ≤ pyInt b := by
  unfold pyInt
  rw [if_pos ha, if_pos (ha.trans hab)]
  exact Int.floor_le_floor hab

lemma sepiaPixel_zero (p : RGB) : ∃ v, sepiaPixel 0 p = ⟨v, v, v⟩ := by
  refine ⟨(pyInt ((299/1000) * (p.r : ℚ) + (587/1000) * (p.g : ℚ) +
    (114/1000) * (p.b : ℚ))).toNat, ?_⟩
  unfold sepiaPixel
  rw [if_pos (by norm_num : (0:ℚ) < 1)]
  simp [pyInt_intCast]

lemma sepiaPixel_one (p : RGB) :
    (sepiaPixel 1 p).g ≤ (sepiaPixel 1 p).r ∧ (sepiaPixel 1 p).b ≤ (sepiaPixel 1 p).g := by
  unfold sepiaPixel
  rw [if_neg (by norm_num : ¬((1:ℚ) < 1))]
  have hg0 : (0 : ℚ) ≤ ((pyInt ((299/1000) * (p.r : ℚ) + (587/1000) * (p.g : ℚ) +
      (114/1000) * (p.b : ℚ))) : ℚ) := by
    have h0 : (0 : ℤ) ≤ pyInt ((299/1000) * (p.r : ℚ) + (587/1000) * (p.g : ℚ) +
        (114/1000) * (p.b : ℚ)) := pyInt_nonneg (by positivity)
    exact_mod_cast h0
  constructor
  · exact Int.toNat_le_toNat (min_le_min (le_refl _)
      (pyInt_mono (by nlinarith) (by nlinarith)))
  · exact Int.toNat_le_toNat (min_le_min (le_refl _)
      (pyInt_mono (by nlinarith) (by nlinarith)))

/-- **C5.**  `convert_to_sepia` at intensity 0.0 yields pixels with
`|R−G| < 10` and `|G−B| < 10` (indeed exactly grayscale), and at
intensity 1.0 yields pixels with `R ≥ G ≥ B`. -/
theorem sepia_intensity_extremes (pixels out : List RGB) :
    (convert_to_sepia 0 pixels = Except.ok out →
      ∀ p ∈ out, ((p.r : ℤ) - p.g).natAbs < 10 ∧ ((p.g : ℤ) - p.b).natAbs < 10) ∧
    (convert_to_sepia 1 pixels = Except.ok out →
      ∀ p ∈ out, p.g ≤ p.r ∧ p.b ≤ p.g) := by
  constructor
  · intro h p hp
    rw [convert_to_sepia, if_neg (by norm_num)] at h
    obtain rfl : pixels.map (sepiaPixel 0) = out := by
      exact Except.ok.inj h
    obtain ⟨q, hq, rfl⟩ := List.mem_map.mp hp
    obtain ⟨v, hv⟩ := sepiaPixel_zero q
    rw [hv]
    simp
  · intro h p hp
    rw [convert_to_sepia, if_neg (by norm_num)] at h
    obtain rfl : pixels.map (sepiaPixel 1) = out := by
      exact Except.ok.inj h
    obtain ⟨q, hq, rfl⟩ := List.mem_map.mp hp
    exact sepiaPixel_one q

/-- Witness for C5 at the pixel (100, 150, 200): sepia at intensity 0
gives (140, 140, 140) and at intensity 1 gives (189, 168, 131). -/
theorem sepia_intensity_extremes_witness :
    (∀ p ∈ [(⟨140, 140, 140⟩ : RGB)],
      ((p.r : ℤ) - p.g).natAbs < 10 ∧ ((p.g : ℤ) - p.b).natAbs < 10) ∧
    (∀ p ∈ [(⟨189, 168, 131⟩ : RGB)], p.g ≤ p.r ∧ p.b ≤ p.g) := by
  have h0 : sepiaPixel 0 ⟨100, 150, 200⟩ = ⟨140, 140, 140⟩ := by
    unfold sepiaPixel pyInt
    norm_num
    decide
  have h1 : sepiaPixel 1 ⟨100, 150, 200⟩ = ⟨189, 168, 131⟩ := by
    unfold sepiaPixel pyInt
    norm_num
    refine ⟨by decide, by decide, by decide⟩
  constructor
  · refine (sepia_intensity_extremes [⟨100, 150, 200⟩] [⟨140, 140, 140⟩]).1 ?_
    rw [convert_to_sepia, if_neg (by norm_num)]
    simp [h0]
  · refine (sepia_intensity_extremes [⟨100, 150, 200⟩] [⟨189, 168, 131⟩]).2 ?_
    rw [convert_to_sepia, if_neg (by norm_num)]
    simp [h1]

/-- **C6.**  For a model name not in the capability registry the manager
is still constructed (`mkCompatibilityManager` is total — the lookup
`ValueError` is absorbed by `_get_profile_safe`), every `supports_feature`
query returns false, and the generation/evaluation configs are the
all-disabled fallback structures. -/
theorem unknown_model_fallback (model_name : String)
    (h : MODEL_PROFILES.lookup model_name = none) :
    (∀ feature, supports_feature (mkCompatibilityManager model_name) feature = false) ∧
    get_generation_config (mkCompatibilityManager model_name) =
      fallbackGenerationConfig ∧
    get_evaluation_config (mkCompatibilityManager model_name) =
      fallbackEvaluationConfig := by
  have hp : (mkCompatibilityManager model_name).profile = none := by
    simp [mkCompatibilityManager, get_profile_safe, get_model_profile, h]
  refine ⟨fun feature => ?_, ?_, ?_⟩ <;>
    simp [supports_feature, get_generation_config, get_evaluation_config, hp]

/-- Witness for C6 at the unregistered model name "gpt-4". -/
theorem unknown_model_fallback_witness :
    (∀ feature, supports_feature (mkCompatibilityManager "gpt-4") feature = false) ∧
    get_generation_config (mkCompatibilityManager "gpt-4") =
      fallbackGenerationConfig ∧
    get_evaluation_config (mkCompatibilityManager "gpt-4") =
      fallbackEvaluationConfig :=
  unknown_model_fallback "gpt-4" (by decide)

/-- **C7.**  With `force_regenerate = false` and the output image already
present, `_generate_version` returns the deterministic existing paths and
leaves the file system exactly as it was (so the file content and
modification time are unchanged); the backend, transform and overlay
collaborators are universally quantified and absent from the result, so
no image generation is performed. -/
theorem generation_idempotent_skip (promptOf : String → String → String)
    (backend : String → Except String String)
    (transform : String → String → String)
    (overlay : String → String → String → String)
    (clock : Nat) (fs : FS) (s : SubjectData) (style : String)
    (h : (fs (create_filename s.name style ++ ".png")).isSome = true) :
    generate_version promptOf backend transform overlay clock fs s style false =
      (fs, Except.ok (create_filename s.name style ++ ".png",
        create_filename s.name style ++ "_prompt.md")) := by
  simp [generate_version, h]

/-- Witness for C7: a second BW generation for Alan Turing over a
directory already containing `AlanTuring_BW.png` returns that path and
leaves the directory untouched. -/
theorem generation_idempotent_skip_witness :
    (witnessFS (create_filename "Alan Turing" "BW" ++ ".png")).isSome = true ∧
    generate_version cPromptOf cBackend cTransform cOverlay 9 witnessFS
        ⟨"Alan Turing", 1912, some 1954, "20th Century"⟩ "BW" false =
      (witnessFS, Except.ok (create_filename "Alan Turing" "BW" ++ ".png",
        create_filename "Alan Turing" "BW" ++ "_prompt.md")) :=
  ⟨by decide, generation_idempotent_skip cPromptOf cBackend cTransform cOverlay 9
    witnessFS ⟨"Alan Turing", 1912, some 1954, "20th Century"⟩ "BW" (by decide)⟩

/-- **C9.**  `generate_image` validates the aspect ratio against the
closed set before any backend call: an out-of-set ratio yields an
immediate `ValueError` with zero backend invocations, and an in-set ratio
never produces the ratio validation error. -/
theorem aspect_ratio_validated_before_backend (f : ClientFlags)
    (backend : String → String → Except String String)
    (prompt aspect_ratio : String) (enable_iteration : Bool)
    (max_iterations : Nat) :
    (valid_ratios.contains aspect_ratio = false →
      (generate_image f backend prompt aspect_ratio enable_iteration
        max_iterations).backend_calls = 0 ∧
      ∃ e, (generate_image f backend prompt aspect_ratio enable_iteration
        max_iterations).result = .error e) ∧
    (valid_ratios.contains aspect_ratio = true →
      ∀ r, (generate_image f backend prompt aspect_ratio enable_iteration
        max_iterations).result ≠ .error (GenError.invalidRatio r)) := by
  constructor
  · intro h
    by_cases h1 : prompt = ""
    · have heq : generate_image f backend prompt aspect_ratio enable_iteration
          max_iterations = ⟨.error .emptyPrompt, 0⟩ := by
        simp [generate_image, h1]
      rw [heq]
      exact ⟨rfl, ⟨GenError.emptyPrompt, rfl⟩⟩
    · by_cases h2 : pyStrip prompt = ""
      · have heq : generate_image f backend prompt aspect_ratio enable_iteration
            max_iterations = ⟨.error .whitespacePrompt, 0⟩ := by
          simp [generate_image, h1, h2]
        rw [heq]
        exact ⟨rfl, ⟨GenError.whitespacePrompt, rfl⟩⟩
      · have hnot : aspect_ratio ∉ valid_ratios := by simpa using h
        have heq : generate_image f backend prompt aspect_ratio enable_iteration
            max_iterations = ⟨.error (.invalidRatio aspect_ratio), 0⟩ := by
          simp [generate_image, h1, h2, hnot]
        rw [heq]
        exact ⟨rfl, ⟨GenError.invalidRatio aspect_ratio, rfl⟩⟩
  · intro h r
    by_cases h1 : prompt = ""
    · have heq : generate_image f backend prompt aspect_ratio enable_iteration
          max_iterations = ⟨.error .emptyPrompt, 0⟩ := by
        simp [generate_image, h1]
      rw [heq]
      simp
    · by_cases h2 : pyStrip prompt = ""
      · have heq : generate_image f backend prompt aspect_ratio enable_iteration
            max_iterations = ⟨.error .whitespacePrompt, 0⟩ := by
          simp [generate_image, h1, h2]
        rw [heq]
        simp
      · have hmem : aspect_ratio ∈ valid_ratios := by simpa using h
        cases hb : backend (enhance_prompt f prompt enable_iteration max_iterations)
            aspect_ratio with
        | error e =>
            have heq : (generate_image f backend prompt aspect_ratio
                enable_iteration max_iterations).result =
                .error (.backendFailure ("Image generation failed: " ++ e)) := by
              simp [generate_image, h1, h2, hmem, hb]
            rw [heq]
            simp
        | ok img =>
            have heq : (generate_image f backend prompt aspect_ratio
                enable_iteration max_iterations).result =
                .ok { image := img, confidence_score := 9/10,
                      iterations_used := 1 } := by
              simp [generate_image, h1, h2, hmem, hb]
            rw [heq]
            simp

/-- Witness for C9: ratio "2:3" fails fast with no backend call; ratio
"3:4" never triggers the ratio validation error. -/
theorem aspect_ratio_validated_before_backend_witness :
    ((generate_image cFlags cImgBackend2 "a prompt" "2:3" true 3).backend_calls = 0 ∧
      ∃ e, (generate_image cFlags cImgBackend2 "a prompt" "2:3" true 3).result =
        .error e) ∧
    (∀ r, (generate_image cFlags cImgBackend2 "a prompt" "3:4" true 3).result ≠
      .error (GenError.invalidRatio r)) :=
  ⟨(aspect_ratio_validated_before_backend cFlags cImgBackend2 "a prompt" "2:3"
      true 3).1 (by decide),
   (aspect_ratio_validated_before_backend cFlags cImgBackend2 "a prompt" "3:4"
      true 3).2 (by decide)⟩

/-- **C8 counterexample.**  The claim says `bar_opacity` outside `(0, 1]`
raises `ValueError`, but the source accepts the whole closed interval
`[0, 1]`: at `bar_opacity = 0` (with valid name, years and height ratio,
on a positive-height image) `add_overlay` returns the composited image
and does not raise, yet `0 ∉ (0, 1]`. -/
theorem overlay_zero_opacity_accepted :
    add_overlay cRender (some testImage) "Alan Turing" "1912-1954" 0 (3/20) =
      Except.ok (cRender testImage "Alan Turing" "1912-1954" 0 (3/20)) ∧
    ¬(0 < (0 : ℚ) ∧ (0 : ℚ) ≤ 1) := by
  have hh1 : testImage.height = 1 := rfl
  have hcf : calculate_font_size 1 (3/20) = .ok (12, 10) := by
    simp only [calculate_font_size]
    rw [if_neg (by decide), if_neg (not_not_intro (by norm_num))]
    unfold pyInt
    norm_num [Int.toNat_zero, Int.toNat_ofNat]
  constructor
  · simp only [add_overlay]
    rw [if_neg (by decide), if_neg (by decide),
      if_neg (not_not_intro (by norm_num)), if_neg (not_not_intro (by norm_num)),
      hh1, hcf]
  · norm_num

/-- **C8 amended.**  `add_overlay` raises `ValueError` exactly when the
name is empty or whitespace, the years string is empty or whitespace,
`bar_opacity` lies outside the **closed** interval `[0, 1]`,
`bar_height_ratio` lies outside the open interval `(0, 1)`, or the image
height is not positive (the unconditional `calculate_font_size` call
raises for a zero-height image, outside any try/except); for all in-range
arguments on a positive-height image it returns an image without
raising. -/
theorem overlay_validation_ranges
    (render : PILImage → String → String → ℚ → ℚ → PILImage) (img : PILImage)
    (name years : String) (bar_opacity bar_height_ratio : ℚ) :
    ((pyStrip name = "" ∨ pyStrip years = "" ∨
        ¬(0 ≤ bar_opacity ∧ bar_opacity ≤ 1) ∨
        ¬(0 < bar_height_ratio ∧ bar_height_ratio < 1) ∨ img.height = 0) →
      ∃ e, add_overlay render (some img) name years bar_opacity bar_height_ratio =
        .error e) ∧
    (pyStrip name ≠ "" → pyStrip years ≠ "" →
      0 ≤ bar_opacity → bar_opacity ≤ 1 →
      0 < bar_height_ratio → bar_height_ratio < 1 → img.height ≠ 0 →
      add_overlay render (some img) name years bar_opacity bar_height_ratio =
        .ok (render img name years bar_opacity bar_height_ratio)) := by
  constructor
  · intro h
    by_cases c1 : (name = "" || pyStrip name = "") = true
    · refine ⟨"Name cannot be empty", ?_⟩
      simp only [add_overlay]
      rw [if_pos c1]
    · by_cases c2 : (years = "" || pyStrip years = "") = true
      · refine ⟨"Years cannot be empty", ?_⟩
        simp only [add_overlay]
        rw [if_neg c1, if_pos c2]
      · by_cases c3 : ¬(0 ≤ bar_opacity ∧ bar_opacity ≤ 1)
        · refine ⟨"Bar opacity must be between 0.0 and 1.0", ?_⟩
          simp only [add_overlay]
          rw [if_neg c1, if_neg c2, if_pos c3]
        · by_cases c4 : ¬(0 < bar_height_ratio ∧ bar_height_ratio < 1)
          · refine ⟨"Bar height ratio must be between 0.0 and 1.0", ?_⟩
            simp only [add_overlay]
            rw [if_neg c1, if_neg c2, if_neg c3, if_pos c4]
          · by_cases c5 : img.height = 0
            · refine ⟨"Image height must be positive", ?_⟩
              simp only [add_overlay]
              rw [if_neg c1, if_neg c2, if_neg c3, if_neg c4]
              have hcf : calculate_font_size img.height bar_height_ratio =
                  .error "Image height must be positive" := by
                simp only [calculate_font_size]
                rw [if_pos c5]
              rw [hcf]
            · exfalso
              simp only [Bool.or_eq_true, decide_eq_true_eq] at c1 c2
              push_neg at c1 c2
              rcases h with h | h | h | h | h
              · exact c1.2 h
              · exact c2.2 h
              · exact c3 h
              · exact c4 h
              · exact c5 h
  · intro hn hy ho1 ho2 hr1 hr2 hh
    have hn0 : name ≠ "" := fun he => hn (by rw [he]; rfl)
    have hy0 : years ≠ "" := fun he => hy (by rw [he]; rfl)
    simp only [add_overlay]
    rw [if_neg (by simp [hn0, hn]), if_neg (by simp [hy0, hy]),
      if_neg (not_not_intro ⟨ho1, ho2⟩), if_neg (not_not_intro ⟨hr1, hr2⟩)]
    have hcf : ∃ sizes : Nat × Nat,
        calculate_font_size img.height bar_height_ratio = .ok sizes := by
      simp only [calculate_font_size]
      rw [if_neg hh, if_neg (not_not_intro ⟨hr1, hr2⟩)]
      exact ⟨_, rfl⟩
    obtain ⟨sizes, hcf⟩ := hcf
    rw [hcf]

/-- Witness for C8 (amended): a whitespace name raises, a zero-height
image raises even with valid arguments, and fully in-range arguments on a
positive-height image return the composited image. -/
theorem overlay_validation_ranges_witness :
    (∃ e, add_overlay cRender (some testImage) "  " "1912-1954" (13/20) (3/20) =
      .error e) ∧
    (∃ e, add_overlay cRender (some ⟨1, 0, "RGB", []⟩) "Alan Turing" "1912-1954"
      (13/20) (3/20) = .error e) ∧
    add_overlay cRender (some testImage) "Alan Turing" "1912-1954" (13/20) (3/20) =
      .ok (cRender testImage "Alan Turing" "1912-1954" (13/20) (3/20)) :=
  ⟨(overlay_validation_ranges cRender testImage "  " "1912-1954" (13/20) (3/20)).1
      (Or.inl (by decide)),
   (overlay_validation_ranges cRender ⟨1, 0, "RGB", []⟩ "Alan Turing" "1912-1954"
      (13/20) (3/20)).1 (Or.inr (Or.inr (Or.inr (Or.inr rfl)))),
   (overlay_validation_ranges cRender testImage "Alan Turing" "1912-1954" (13/20)
      (3/20)).2 (by decide) (by decide) (by norm_num) (by norm_num) (by norm_num)
      (by norm_num) (by decide)⟩

/-- **C3 counterexample.**  The orchestrator names files by
`_create_filename` (word-capitalisation), not by the claimed
`sanitize_filename` rule: for the subject "J.C. Shaw" the orchestrator
produces `JcShaw_BW.png` while the sanitize rule yields `JCShaw_BW.png`. -/
theorem orchestrator_filename_not_sanitize :
    (generate_version cPromptOf cBackend cTransform cOverlay 0 emptyFS
        ⟨"J.C. Shaw", 1913, some 1991, "20th Century"⟩ "BW" false).2 =
      Except.ok ("JcShaw_BW.png", "JcShaw_BW_prompt.md") ∧
    sanitize_filename "J.C. Shaw" ++ "_" ++ "BW" ++ ".png" = "JCShaw_BW.png" ∧
    ("JcShaw_BW.png" : String) ≠ "JCShaw_BW.png" := by
  refine ⟨rfl, by decide, by decide⟩

/-- **C3 amended.**  The image file produced by `_generate_version` is
always named `create_filename(name, style) + ".png"` (filter to
alphanumerics and whitespace, split into words, `capitalize` each word —
upper-casing the first letter and lower-casing the rest — join, append
the style); on "Alan Turing" this agrees with the spec example
"AlanTuring". -/
theorem orchestrator_filename_rule
    (promptOf : String → String → String) (backend : String → Except String String)
    (transform : String → String → String)
    (overlay : String → String → String → String)
    (clock : Nat) (fs : FS) (s : SubjectData) (style : String) (force : Bool)
    (p pp : String)
    (h : (generate_version promptOf backend transform overlay clock fs s style
      force).2 = Except.ok (p, pp)) :
    p = create_filename s.name style ++ ".png" ∧
    pp = create_filename s.name style ++ "_prompt.md" ∧
    create_filename "Alan Turing" "BW" = "AlanTuring_BW" := by
  simp only [generate_version] at h
  split at h
  · simp only [Except.ok.injEq, Prod.mk.injEq] at h
    exact ⟨h.1.symm, h.2.symm, by decide⟩
  · split at h
    · simp at h
    · simp only [Except.ok.injEq, Prod.mk.injEq] at h
      exact ⟨h.1.symm, h.2.symm, by decide⟩

/-- Witness for C3 (amended) at "Alan Turing"/"BW". -/
theorem orchestrator_filename_rule_witness :
    ("AlanTuring_BW.png" : String) = create_filename "Alan Turing" "BW" ++ ".png" ∧
    ("AlanTuring_BW_prompt.md" : String) =
      create_filename "Alan Turing" "BW" ++ "_prompt.md" ∧
    create_filename "Alan Turing" "BW" = "AlanTuring_BW" :=
  orchestrator_filename_rule cPromptOf cBackend cTransform cOverlay 0 emptyFS
    ⟨"Alan Turing", 1912, some 1954, "20th Century"⟩ "BW" false
    "AlanTuring_BW.png" "AlanTuring_BW_prompt.md" rfl

lemma generate_portrait_ok_subject (research : String → Except String SubjectData)
    (gen : SubjectData → String → Except String (String × String))
    (evalO : String → Except String EvaluationResult)
    (name : String) (styles : Option (List String)) (r : PortraitResult)
    (h : generate_portrait research gen evalO name styles = Except.ok r) :
    r.subject = name := by
  simp only [generate_portrait] at h
  split at h
  · simp at h
  · split at h
    · simp at h
    · split at h
      · simp only [Except.ok.injEq] at h
        subst h
        rfl
      · simp only [Except.ok.injEq] at h
        subst h
        rfl

lemma batchEntry_subject (research : String → Except String SubjectData)
    (gen : SubjectData → String → Except String (String × String))
    (evalO : String → Except String EvaluationResult)
    (styles : Option (List String)) (name : String) :
    (batchEntry research gen evalO styles name).subject = name := by
  unfold batchEntry
  split
  · next r hr => exact generate_portrait_ok_subject _ _ _ _ _ _ hr
  · rfl

lemma batchEntry_research_error (research : String → Except String SubjectData)
    (gen : SubjectData → String → Except String (String × String))
    (evalO : String → Except String EvaluationResult)
    (styles : Option (List String)) (name : String) (e : String)
    (h : research name = .error e) :
    (batchEntry research gen evalO styles name).success = false ∧
    (batchEntry research gen evalO styles name).errors ≠ [] := by
  unfold batchEntry
  split
  · next r hr =>
      simp only [generate_portrait] at hr
      split at hr
      · simp at hr
      · split at hr
        · simp at hr
        · split at hr
          · simp only [Except.ok.injEq] at hr
            subst hr
            exact ⟨rfl, by simp⟩
          · next sd hsd =>
              rw [h] at hsd
              simp at hsd
  · exact ⟨rfl, by simp⟩

/-- **C4.**  For a non-empty subject list, `generate_batch` returns (never
raises) a result list of exactly the input length, whose i-th entry is a
function of the i-th name alone (so sibling subjects are unaffected by a
failure); any subject whose research call fails gets `success = false`
and a non-empty `errors` list. -/
theorem batch_isolation (research : String → Except String SubjectData)
    (gen : SubjectData → String → Except String (String × String))
    (evalO : String → Except String EvaluationResult)
    (names : List String) (styles : Option (List String)) (h : names ≠ []) :
    ∃ rs : List PortraitResult,
      generate_batch research gen evalO names styles = Except.ok rs ∧
      rs.length = names.length ∧
      (∀ i : Nat, rs[i]? = (names[i]?).map (batchEntry research gen evalO styles)) ∧
      (∀ (i : Nat) (name : String), names[i]? = some name →
        ∃ r : PortraitResult, rs[i]? = some r ∧ r.subject = name ∧
          ∀ e, research name = Except.error e →
            r.success = false ∧ r.errors ≠ []) := by
  refine ⟨names.map (batchEntry research gen evalO styles), ?_, by simp, ?_, ?_⟩
  · simp [generate_batch, h]
  · intro i
    simp [List.getElem?_map]
  · intro i name hname
    refine ⟨batchEntry research gen evalO styles name, ?_,
      batchEntry_subject research gen evalO styles name,
      fun e he => batchEntry_research_error research gen evalO styles name e he⟩
    simp [List.getElem?_map, hname]

/-- Witness for C4: three subjects, the second of which fails research. -/
theorem batch_isolation_witness :
    ∃ rs : List PortraitResult,
      generate_batch cResearch cGen cEvalO ["Ada", "Bad", "Carl"]
        (some ["BW"]) = Except.ok rs ∧
      rs.length = (["Ada", "Bad", "Carl"] : List String).length ∧
      (∀ i : Nat, rs[i]? = ((["Ada", "Bad", "Carl"] : List String)[i]?).map
        (batchEntry cResearch cGen cEvalO (some ["BW"]))) ∧
      (∀ (i : Nat) (name : String),
        (["Ada", "Bad", "Carl"] : List String)[i]? = some name →
        ∃ r : PortraitResult, rs[i]? = some r ∧ r.subject = name ∧
          ∀ e, cResearch name = Except.error e →
            r.success = false ∧ r.errors ≠ []) :=
  batch_isolation cResearch cGen cEvalO ["Ada", "Bad", "Carl"] (some ["BW"])
    (by decide)
